import Mathlib

/-
Verification of the udev stub layer (src/src/stubs/udev_stubs.c) of
Valkary-USB-Manager, together with the monitoring contract the stubs stand
in for.

Embedding conventions:
- A C pointer value is `Option Nat`: `none` is NULL, `some h` a non-null
  handle. A C string argument or result is `Option String`: `none` is NULL.
- Every stub function is embedded in state-passing style over an explicit
  `World`, so that "performs no other work / no side effect" is a statable
  property: the C bodies discard each argument with `(void)arg;` and return
  a constant sentinel, so each embedded body returns that sentinel and the
  incoming world unchanged.
- The subscription/decoding contract the stubs impersonate is not present
  in the repository; those definitions are modelled from the specification
  text and say so in their doc comments.
-/

set_option linter.unusedVariables false

namespace Udev

/-- A C pointer value: `none` is NULL, `some h` a non-null handle. -/
abbrev Ptr := Option Nat

/-- A C string value: `none` is NULL. -/
abbrev CString := Option String

/-- Observable state of the environment around a call; used to express that
the stubs have no side effects. The stub bodies never touch it. -/
structure World where
  log : List String
  deriving DecidableEq, Repr

/-- Embedding of `udev_new`: `return NULL;`. -/
def udev_new (w : World) : Ptr × World :=
  (none, w)

/-- Embedding of `udev_unref`: `(void)udev;` and return. -/
def udev_unref (udev : Ptr) (w : World) : World :=
  w

/-- Embedding of `udev_monitor_new_from_netlink`: discards both arguments,
`return NULL;`. -/
def udev_monitor_new_from_netlink (udev : Ptr) (name : CString) (w : World) :
    Ptr × World :=
  (none, w)

/-- Embedding of `udev_monitor_filter_add_match_subsystem_devtype`: discards
all three arguments, `return -1;`. -/
def udev_monitor_filter_add_match_subsystem_devtype (udev_monitor : Ptr)
    (subsystem : CString) (devtype : CString) (w : World) : Int × World :=
  (-1, w)

/-- Embedding of `udev_monitor_enable_receiving`: discards its argument,
`return -1;`. -/
def udev_monitor_enable_receiving (udev_monitor : Ptr) (w : World) :
    Int × World :=
  (-1, w)

/-- Embedding of `udev_monitor_get_fd`: discards its argument, `return -1;`. -/
def udev_monitor_get_fd (udev_monitor : Ptr) (w : World) : Int × World :=
  (-1, w)

/-- Embedding of `udev_monitor_unref`: `(void)udev_monitor;` and return. -/
def udev_monitor_unref (udev_monitor : Ptr) (w : World) : World :=
  w

/-- Embedding of `udev_monitor_receive_device`: discards its argument,
`return NULL;`. -/
def udev_monitor_receive_device (udev_monitor : Ptr) (w : World) :
    Ptr × World :=
  (none, w)

/-- Embedding of `udev_device_get_action`: discards its argument,
`return NULL;`. -/
def udev_device_get_action (udev_device : Ptr) (w : World) :
    CString × World :=
  (none, w)

/-- Embedding of `udev_device_get_devnode`: discards its argument,
`return NULL;`. -/
def udev_device_get_devnode (udev_device : Ptr) (w : World) :
    CString × World :=
  (none, w)

/-- Embedding of `udev_device_get_sysattr_value`: discards both arguments,
`return NULL;`. -/
def udev_device_get_sysattr_value (udev_device : Ptr) (sysattr : CString)
    (w : World) : CString × World :=
  (none, w)

/-- Embedding of `udev_device_unref`: `(void)udev_device;` and return. -/
def udev_device_unref (udev_device : Ptr) (w : World) : World :=
  w

/-- Modelled from the spec: the error taxonomy of the monitoring layer the
stubs stand in for (section 7); the real layer is absent from the sources. -/
inductive MonError where
  | ContextUnavailable
  | SubscriptionCreateFailed
  | InvalidFilter
  | AlreadyActivated
  | ActivationFailed
  | NotActivated
  | ReadFailed
  | UseAfterClose
  deriving DecidableEq, Repr

/-- Modelled from the spec: a (subsystem, device-type-or-none) filter pair. -/
structure Filter where
  subsystem : String
  devtype : Option String
  deriving DecidableEq, Repr

/-- Modelled from the spec: a MonitorSubscription holds zero or more filter
pairs, applied before activation, and an activation flag; the real layer is
absent from the sources. -/
structure Subscription where
  filters : List Filter
  activated : Bool
  deriving DecidableEq, Repr

/-- A freshly created subscription: no filters, not yet activated. -/
def Subscription.init : Subscription :=
  { filters := [], activated := false }

/-- Modelled from the spec: `add_filter(subscription, subsystem,
device_type_or_none)` restricts which events will later be delivered; may be
called multiple times; fails with `InvalidFilter` if called after
activation. -/
def add_filter (s : Subscription) (subsystem : String)
    (devtype : Option String) : Except MonError Subscription :=
  if s.activated then
    Except.error MonError.InvalidFilter
  else
    Except.ok { s with filters := s.filters ++ [⟨subsystem, devtype⟩] }

/-- Modelled from the spec: `activate(subscription)` begins receiving;
exactly-once operation, fails with `AlreadyActivated` if called twice. -/
def activate (s : Subscription) : Except MonError Subscription :=
  if s.activated then
    Except.error MonError.AlreadyActivated
  else
    Except.ok { s with activated := true }

/-- A sequence of `add_filter` calls, stopping at the first failure. -/
def addFilters (s : Subscription) : List Filter → Except MonError Subscription
  | [] => Except.ok s
  | f :: fs =>
    match add_filter s f.subsystem f.devtype with
    | Except.ok s' => addFilters s' fs
    | Except.error e => Except.error e

/-- Modelled from the spec: the fixed action enumeration
{Added, Removed, Changed, Unknown}. -/
inductive Action where
  | Added
  | Removed
  | Changed
  | Unknown
  deriving DecidableEq, Repr

/-- Modelled from the spec: the action is decoded from a raw string into the
fixed enumeration; any unrecognized raw value (including a NULL string) maps
to `Unknown` rather than failing. -/
def decodeAction : CString → Action
  | none => Action.Unknown
  | some raw =>
    if raw = "add" then Action.Added
    else if raw = "remove" then Action.Removed
    else if raw = "change" then Action.Changed
    else Action.Unknown

/-- Modelled from the spec: a DeviceEvent is an immutable snapshot of one
notification: action kind and optional device node path (attributes are
queried lazily against the device record, not eagerly captured). -/
structure DeviceEvent where
  action : Action
  device_node : Option String
  deriving DecidableEq, Repr

/-- Modelled from the spec: one `read_event` call yields no event (a
non-error sentinel), one event, or the `ReadFailed` error. -/
inductive ReadResult where
  | noEvent
  | event (e : DeviceEvent)
  | readFailed
  deriving DecidableEq, Repr

/-- Number of device events one `ReadResult` carries. -/
def eventCount : ReadResult → Nat
  | ReadResult.event _ => 1
  | _ => 0

/-- One read on the stub layer: receive a device record from the monitor and
decode it; a NULL record is the non-error "no event" outcome. -/
def read_event (m : Ptr) (w : World) : ReadResult × World :=
  match udev_monitor_receive_device m w with
  | (none, w1) => (ReadResult.noEvent, w1)
  | (some d, w1) =>
    match udev_device_get_action (some d) w1 with
    | (act, w2) =>
      match udev_device_get_devnode (some d) w2 with
      | (node, w3) =>
        (ReadResult.event { action := decodeAction act, device_node := node },
          w3)

/-- Adding any list of filters to a not-yet-activated subscription succeeds,
appends the filters in order, and leaves the subscription inactive. -/
theorem addFilters_of_not_activated (fs : List Filter) :
    ∀ s : Subscription, s.activated = false →
      addFilters s fs = Except.ok ⟨s.filters ++ fs, false⟩ := by
  induction fs with
  | nil =>
    intro s hs
    cases s with
    | mk fl ac =>
      simp only [addFilters, List.append_nil]
      simp only at hs
      rw [hs]
  | cons f fs ih =>
    intro s hs
    cases f with
    | mk sub dt =>
      simp only [addFilters, add_filter, hs, Bool.false_eq_true, if_false]
      rw [ih _ rfl]
      simp

/-- C1: for every argument value, every function in the stub file returns
its null/failure sentinel (NULL for pointer results, -1 for int results,
nothing for void results) and performs no other work: the world state is
unchanged by every call. -/
theorem C1_stub_sentinels_no_side_effects :
    ∀ (w : World) (p : Ptr) (s t : CString),
      udev_new w = (none, w) ∧
      udev_unref p w = w ∧
      udev_monitor_new_from_netlink p s w = (none, w) ∧
      udev_monitor_filter_add_match_subsystem_devtype p s t w = (-1, w) ∧
      udev_monitor_enable_receiving p w = (-1, w) ∧
      udev_monitor_get_fd p w = (-1, w) ∧
      udev_monitor_unref p w = w ∧
      udev_monitor_receive_device p w = (none, w) ∧
      udev_device_get_action p w = (none, w) ∧
      udev_device_get_devnode p w = (none, w) ∧
      udev_device_get_sysattr_value p s w = (none, w) ∧
      udev_device_unref p w = w := by
  intro w p s t
  exact ⟨rfl, rfl, rfl, rfl, rfl, rfl, rfl, rfl, rfl, rfl, rfl, rfl⟩

/-- C2: `udev_new` fails fast on every call: it returns NULL (the
ContextUnavailable outcome) and never a valid non-null device context. -/
theorem C2_udev_new_always_null :
    ∀ w : World,
      (udev_new w).1 = none ∧ ∀ h : Nat, (udev_new w).1 ≠ some h := by
  intro w
  exact ⟨rfl, fun h hc => Option.noConfusion hc⟩

/-- C3: from a fresh subscription, any sequence of `add_filter` calls
succeeds (appending the filters), a following `activate` succeeds, and any
subsequent filter addition fails with `InvalidFilter`. -/
theorem C3_filter_after_activation_fails :
    ∀ (fs : List Filter) (sub : String) (dt : Option String),
      ∃ s s' : Subscription,
        addFilters Subscription.init fs = Except.ok s ∧
        s.filters = fs ∧
        activate s = Except.ok s' ∧
        add_filter s' sub dt = Except.error MonError.InvalidFilter := by
  intro fs sub dt
  refine ⟨⟨fs, false⟩, ⟨fs, true⟩, ?_, rfl, rfl, rfl⟩
  have h := addFilters_of_not_activated fs Subscription.init rfl
  simpa [Subscription.init] using h

/-- C4: `activate` is an exactly-once operation: on a not-yet-activated
subscription the first call succeeds and arms it, and a second call always
fails with `AlreadyActivated`, never producing a re-armed subscription. -/
theorem C4_activate_exactly_once :
    ∀ s : Subscription, s.activated = false →
      activate s = Except.ok { s with activated := true } ∧
      activate { s with activated := true } =
        Except.error MonError.AlreadyActivated ∧
      ∀ s' : Subscription,
        activate { s with activated := true } ≠ Except.ok s' := by
  intro s hs
  refine ⟨?_, rfl, fun s' hc => ?_⟩
  · simp [activate, hs]
  · simp [activate] at hc

/-- Witness for C4 at the fresh subscription. -/
theorem C4_activate_exactly_once_witness :
    activate Subscription.init =
      Except.ok { Subscription.init with activated := true } ∧
    activate { Subscription.init with activated := true } =
      Except.error MonError.AlreadyActivated ∧
    ∀ s' : Subscription,
      activate { Subscription.init with activated := true } ≠
        Except.ok s' :=
  C4_activate_exactly_once Subscription.init rfl

/-- C5: action decoding is total and never fails: any raw action string
outside {"add", "remove", "change"} decodes to `Unknown`, and in particular
the NULL action the stub `udev_device_get_action` returns decodes to
`Unknown`. -/
theorem C5_decode_unrecognized_is_unknown :
    (∀ raw : CString,
      raw ≠ some ("add") → raw ≠ some ("remove") → raw ≠ some ("change") →
      decodeAction raw = Action.Unknown) ∧
    ∀ (d : Ptr) (w : World),
      decodeAction (udev_device_get_action d w).1 = Action.Unknown := by
  constructor
  · intro raw h1 h2 h3
    match raw with
    | none => rfl
    | some s =>
      have hs1 : s ≠ "add" := fun h => h1 (by rw [h])
      have hs2 : s ≠ "remove" := fun h => h2 (by rw [h])
      have hs3 : s ≠ "change" := fun h => h3 (by rw [h])
      simp [decodeAction, hs1, hs2, hs3]
  · intro d w
    rfl

/-- Witness for C5 at the stub's NULL action string. -/
theorem C5_decode_unrecognized_is_unknown_witness :
    decodeAction (none : CString) = Action.Unknown :=
  C5_decode_unrecognized_is_unknown.1 none (by simp) (by simp) (by simp)

/-- C6: the stub `udev_device_get_devnode` reports the device node as
absent (NULL) for every device, never as an empty string. -/
theorem C6_devnode_absent_never_empty :
    ∀ (d : Ptr) (w : World),
      (udev_device_get_devnode d w).1 = none ∧
      (udev_device_get_devnode d w).1 ≠ some "" := by
  intro d w
  exact ⟨rfl, fun hc => Option.noConfusion hc⟩

/-- C7: one `read_event` call yields zero or one device events, the
zero-event outcome is the non-error sentinel distinct from `ReadFailed`,
and on the stub it is the "no event" outcome for every monitor on every
call because `udev_monitor_receive_device` returns NULL. -/
theorem C7_read_event_zero_or_one :
    ∀ (m : Ptr) (w : World),
      udev_monitor_receive_device m w = (none, w) ∧
      read_event m w = (ReadResult.noEvent, w) ∧
      ReadResult.noEvent ≠ ReadResult.readFailed ∧
      ∀ r : ReadResult, eventCount r ≤ 1 := by
  intro m w
  refine ⟨rfl, rfl, by simp, fun r => ?_⟩
  cases r <;> simp [eventCount]

/-- C8: subscription creation fails uniformly: for every context value and
every source name (the valid name "udev" included, NULL included),
`udev_monitor_new_from_netlink` returns NULL, the SubscriptionCreateFailed
outcome. -/
theorem C8_monitor_creation_always_fails :
    ∀ (ctx : Ptr) (name : CString) (w : World),
      udev_monitor_new_from_netlink ctx name w = (none, w) ∧
      (udev_monitor_new_from_netlink ctx (some ("udev")) w).1 = none ∧
      ∀ h : Nat, (udev_monitor_new_from_netlink ctx name w).1 ≠ some h := by
  intro ctx name w
  exact ⟨rfl, rfl, fun h hc => Option.noConfusion hc⟩

/-- C9: every stub function is deterministic and its returned value is
independent of its arguments: any two argument lists (and any two worlds)
give equal results, so no caller-supplied pointer or string can influence
any observable output. -/
theorem C9_results_independent_of_arguments :
    ∀ (w w' : World) (p p' : Ptr) (n n' s s' t t' a a' : CString),
      (udev_new w).1 = (udev_new w').1 ∧
      udev_unref p w = udev_unref p' w ∧
      (udev_monitor_new_from_netlink p n w).1 =
        (udev_monitor_new_from_netlink p' n' w').1 ∧
      (udev_monitor_filter_add_match_subsystem_devtype p s t w).1 =
        (udev_monitor_filter_add_match_subsystem_devtype p' s' t' w').1 ∧
      (udev_monitor_enable_receiving p w).1 =
        (udev_monitor_enable_receiving p' w').1 ∧
      (udev_monitor_get_fd p w).1 = (udev_monitor_get_fd p' w').1 ∧
      udev_monitor_unref p w = udev_monitor_unref p' w ∧
      (udev_monitor_receive_device p w).1 =
        (udev_monitor_receive_device p' w').1 ∧
      (udev_device_get_action p w).1 = (udev_device_get_action p' w').1 ∧
      (udev_device_get_devnode p w).1 = (udev_device_get_devnode p' w').1 ∧
      (udev_device_get_sysattr_value p a w).1 =
        (udev_device_get_sysattr_value p' a' w').1 ∧
      udev_device_unref p w = udev_device_unref p' w := by
  intro w w' p p' n n' s s' t t' a a'
  exact ⟨rfl, rfl, rfl, rfl, rfl, rfl, rfl, rfl, rfl, rfl, rfl, rfl⟩

/-- C10: every stub function is total and safe on NULL arguments: called
with NULL for every pointer and string argument it still returns its
sentinel without changing the world, and the unref functions are no-ops on
NULL and on already-released handles (a second release changes nothing). -/
theorem C10_null_and_released_handles_safe :
    ∀ (w : World) (p : Ptr),
      udev_unref none w = w ∧
      udev_monitor_unref none w = w ∧
      udev_device_unref none w = w ∧
      udev_unref p (udev_unref p w) = w ∧
      udev_monitor_unref p (udev_monitor_unref p w) = w ∧
      udev_device_unref p (udev_device_unref p w) = w ∧
      udev_monitor_new_from_netlink none none w = (none, w) ∧
      udev_monitor_filter_add_match_subsystem_devtype none none none w =
        (-1, w) ∧
      udev_monitor_enable_receiving none w = (-1, w) ∧
      udev_monitor_get_fd none w = (-1, w) ∧
      udev_monitor_receive_device none w = (none, w) ∧
      udev_device_get_action none w = (none, w) ∧
      udev_device_get_devnode none w = (none, w) ∧
      udev_device_get_sysattr_value none none w = (none, w) := by
  intro w p
  exact ⟨rfl, rfl, rfl, rfl, rfl, rfl, rfl, rfl, rfl, rfl, rfl, rfl, rfl,
    rfl⟩

end Udev
